import Mathlib

/-!
Shallow embedding of the deterministic extraction / categorization /
aggregation pipeline of the AI-Powered-Customer-Onboarding-KYC-Verification
repository (src/agents/agents.py and src/main.py), together with theorems
settling the specification claims about it.

Python strings are modelled as Lean `String` (a sequence of code points);
the ASCII-relevant behaviour of `str.lower`, `str.strip` and `str.split`
is embedded explicitly below.  Filesystem and external-library effects
(`os.stat`, PyMuPDF, PyPDF2, PIL, the LLM crew) are modelled as oracles
packaged in a `FileSystem` record: each oracle returns `Except`/`Option`
values standing for "raised an exception" versus a successful result, so
the pipeline functions themselves are total Lean functions.
-/

namespace KYC

/-! ## Python string primitives -/

/-- Python `str.lower()` restricted to ASCII, which is all the pipeline
compares (file extensions). -/
def pyLower (s : String) : String :=
  ⟨s.data.map Char.toLower⟩

/-- The whitespace characters recognised by Python `str.strip()` /
`str.split()` on ASCII text. -/
def pyIsSpace (c : Char) : Bool :=
  c == ' ' || c == '\t' || c == '\n' || c == '\r' || c == '\x0b' || c == '\x0c'

/-- Python `s.strip()` on the underlying character list: drop leading and
trailing whitespace. -/
def pyStripL (l : List Char) : List Char :=
  ((l.dropWhile pyIsSpace).reverse.dropWhile pyIsSpace).reverse

/-- Accumulator pass of Python `s.split()` (no separator argument):
`acc` is the token currently being read; tokens are maximal runs of
non-whitespace characters, empty tokens are never produced. -/
def pySplitAux : List Char → List Char → List (List Char)
  | [], acc => if acc.isEmpty then [] else [acc]
  | c :: cs, acc =>
      if pyIsSpace c then
        if acc.isEmpty then pySplitAux cs [] else acc :: pySplitAux cs []
      else pySplitAux cs (acc ++ [c])

/-- Python `s.split()`: whitespace-delimited tokens. -/
def pySplitL (l : List Char) : List (List Char) :=
  pySplitAux l []

/-- Index of the last occurrence of `c` in `l`, or `-1` when absent —
Python `str.rfind`. -/
def rfind (c : Char) (l : List Char) : Int :=
  (l.foldl
    (fun st ch =>
      let i := st.1
      let best := st.2
      (i + 1, if ch == c then i else best))
    ((0 : Int), (-1 : Int))).2

/-- The extension part of `posixpath.splitext`: the suffix from the last
dot, provided that dot lies after the last path separator and the base
name has at least one non-dot character before it; otherwise `""`. -/
def splitextExt (p : String) : String :=
  let l := p.data
  let sep := rfind '/' l
  let dot := rfind '.' l
  if sep < dot then
    let between := (l.drop (sep + 1).toNat).take (dot - sep - 1).toNat
    if between.any (fun ch => ch != '.') then ⟨l.drop dot.toNat⟩ else ""
  else ""

/-- Python `os.path.basename`: everything after the last `/`. -/
def basename (p : String) : String :=
  ⟨p.data.drop (rfind '/' p.data + 1).toNat⟩

/-! ## File categorization (`categorize_files_by_type`, agents.py) -/

/-- The fixed image-extension list of `categorize_files_by_type`. -/
def image_extensions : List String :=
  [".jpg", ".jpeg", ".png", ".gif", ".bmp", ".tiff"]

/-- The fixed document-extension list of `categorize_files_by_type`. -/
def document_extensions : List String :=
  [".pdf", ".doc", ".docx", ".txt", ".xlsx", ".xls", ".pptx"]

/-- The three category lists built by `categorize_files_by_type`. -/
structure Categorized where
  images : List String
  documents : List String
  other : List String
deriving DecidableEq, Repr

/-- The test `os.path.splitext(file_path)[1].lower()` followed by the
image-list membership test of the source. -/
def isImagePath (p : String) : Bool :=
  image_extensions.contains (pyLower (splitextExt p))

/-- The document-list membership test of the source (tried only after the
image test fails, see `categorize_files_by_type`). -/
def isDocumentPath (p : String) : Bool :=
  document_extensions.contains (pyLower (splitextExt p))

/-- Function `categorize_files_by_type` of agents.py.  The Python loop appends each
path to exactly one of the three lists in input order; the structural
recursion below builds the same three lists. -/
def categorize_files_by_type : List String → Categorized
  | [] => ⟨[], [], []⟩
  | p :: rest =>
    let c := categorize_files_by_type rest
    if isImagePath p then ⟨p :: c.images, c.documents, c.other⟩
    else if isDocumentPath p then ⟨c.images, p :: c.documents, c.other⟩
    else ⟨c.images, c.documents, p :: c.other⟩

/-! ## PDF content extraction (`EnhancedMetadataExtractorTool`, agents.py) -/

/-- What the primary backend (PyMuPDF) reports for one page: its extracted
text (`page.get_text()`) and the number of embedded images
(`len(page.get_images())`). -/
structure PrimPage where
  text : String
  images : Nat
deriving DecidableEq, Repr

/-- One entry of `pdf_analysis["page_details"]`. -/
structure PageDetail where
  page_number : Nat
  text_length : Nat
  has_text : Bool
  image_count : Nat
deriving DecidableEq, Repr

/-- The `pdf_analysis` dictionary.  Python dictionaries have optional
keys, so every key that is absent in at least one of the three outcomes
(primary / fallback / failed) is an `Option`; `extraction_method` is set
in all three. -/
structure PdfAnalysis where
  total_pages : Option Nat
  has_text : Option Bool
  has_images : Option Bool
  total_images : Option Nat
  text_content : Option String
  character_count : Option Nat
  word_count : Option Nat
  page_details : Option (List PageDetail)
  extraction_method : String
  error : Option String
deriving DecidableEq, Repr

/-- The accumulated `full_text` of both extraction loops: each page's
text followed by a newline (`full_text += page_text + "\n"`). -/
def joinTextsNl : List String → String
  | [] => ""
  | t :: rest => t ++ "\n" ++ joinTextsNl rest

/-- The excerpt `full_text[:2000] + "..." if len(full_text) > 2000 else full_text`. -/
def truncExcerpt (s : String) : String :=
  if s.length > 2000 then (⟨s.data.take 2000⟩ : String) ++ "..." else s

/-- The `page_details` list built by the primary loop: one entry per page
in page order, pages numbered from 1. -/
def primPageDetails (pages : List PrimPage) : List PageDetail :=
  pages.enum.map fun pr =>
    { page_number := pr.1 + 1
      text_length := pr.2.text.length
      has_text := !(pyStripL pr.2.text.data).isEmpty
      image_count := pr.2.images }

/-- The `pdf_analysis` produced by `_extract_pdf_content` when the primary
(PyMuPDF) backend opens the document and reports the given pages. -/
def pdf_primary_analysis (pages : List PrimPage) : PdfAnalysis :=
  let full_text := joinTextsNl (pages.map PrimPage.text)
  let total_images := (pages.map PrimPage.images).sum
  { total_pages := some pages.length
    has_text := some (!(pyStripL full_text.data).isEmpty)
    has_images := some (decide (total_images > 0))
    total_images := some total_images
    text_content := some (truncExcerpt full_text)
    character_count := some full_text.length
    word_count := some (pySplitL full_text.data).length
    page_details := some (primPageDetails pages)
    extraction_method := "PyMuPDF"
    error := none }

/-- What the fallback backend (PyPDF2) reports per page: `some text` when
`page.extract_text()` returns, `none` when it raises (the loop's bare
`except: continue`). -/
abbrev FallbackPage := Option String

/-- The fallback loop's accumulated text: an erroring page is skipped and
contributes nothing (not even the newline). -/
def fullTextFallback : List FallbackPage → String
  | [] => ""
  | some t :: rest => t ++ "\n" ++ fullTextFallback rest
  | none :: rest => fullTextFallback rest

/-- The `pdf_analysis` produced by `_extract_pdf_content_fallback` when
PyPDF2 opens the document and reports the given pages.  No image or
per-page fields are written. -/
def pdf_fallback_analysis (fpages : List FallbackPage) : PdfAnalysis :=
  let full_text := fullTextFallback fpages
  { total_pages := some fpages.length
    has_text := some (!(pyStripL full_text.data).isEmpty)
    has_images := none
    total_images := none
    text_content := some (truncExcerpt full_text)
    character_count := some full_text.length
    word_count := some (pySplitL full_text.data).length
    page_details := none
    extraction_method := "PyPDF2_fallback"
    error := none }

/-- The `os.stat` attributes used by `extract_metadata`; timestamps are kept
as opaque integers (their ISO formatting is injective bookkeeping the
claims do not touch). -/
structure FileStats where
  st_size : Nat
  st_ctime : Int
  st_mtime : Int
deriving DecidableEq, Repr

/-- What `PIL.Image.open` reports for an image file. -/
structure PILImage where
  width : Nat
  height : Nat
  format : String
  mode : String
  info_transparency : Bool
deriving DecidableEq, Repr

/-- The dictionary returned by `get_image_metadata` on success. -/
structure ImageMetadata where
  dimensions : String
  format : String
  mode : String
  has_transparency : Bool
deriving DecidableEq, Repr

/-- The filesystem / external-library oracles the pipeline consults.
`.error e` models the library raising an exception whose message is `e`;
the per-path results are fixed for the run (single-threaded pipeline). -/
structure FileSystem where
  pathExists : String → Bool
  stat : String → Except String FileStats
  pdfPrimary : String → Except String (List PrimPage)
  pdfFallback : String → Except String (List FallbackPage)
  openImage : String → Except String PILImage

/-- Method `_extract_pdf_content`: try the primary backend; on any exception try
the fallback backend; if that also raises, return the recorded-failure
analysis.  Total by construction — no exception escapes. -/
def _extract_pdf_content (fs : FileSystem) (file_path : String) : PdfAnalysis :=
  match fs.pdfPrimary file_path with
  | .ok pages => pdf_primary_analysis pages
  | .error e =>
    match fs.pdfFallback file_path with
    | .ok fpages => pdf_fallback_analysis fpages
    | .error e2 =>
      { total_pages := none
        has_text := none
        has_images := none
        total_images := none
        text_content := none
        character_count := none
        word_count := none
        page_details := none
        extraction_method := "failed"
        error := some ("PDF extraction failed: " ++ e ++ " | Fallback error: " ++ e2) }

/-- The fixed extension-to-label table of `_determine_file_type`. -/
def doc_types : List (String × String) :=
  [(".pdf", "PDF Document"), (".doc", "Word Document"), (".docx", "Word Document"),
   (".txt", "Text File"), (".xlsx", "Excel Spreadsheet"), (".xls", "Excel Spreadsheet"),
   (".pptx", "PowerPoint Presentation"), (".jpg", "Image"), (".jpeg", "Image"),
   (".png", "Image"), (".gif", "Image"), (".bmp", "Image"), (".tiff", "Image")]

/-- Method `_determine_file_type`: `doc_types.get(extension.lower(), 'Unknown')`. -/
def _determine_file_type (extension : String) : String :=
  match doc_types.lookup (pyLower extension) with
  | some label => label
  | none => "Unknown"

/-- The metadata dictionary built by a successful `extract_metadata` call
(`base_metadata`, plus `pdf_analysis` when the extension is `.pdf`). -/
structure FileRecord where
  file_name : String
  file_path : String
  file_size : Nat
  created_date : Int
  modified_date : Int
  file_extension : String
  file_type : String
  pdf_analysis : Option PdfAnalysis
deriving DecidableEq, Repr

/-- Result of `extract_metadata`: either the full record, or — when
reading the stat attributes raises — a dictionary holding only the error
message. -/
inductive MetadataResult where
  | err (msg : String)
  | ok (r : FileRecord)
deriving DecidableEq, Repr

/-- Method `EnhancedMetadataExtractorTool.extract_metadata`.  The surrounding
`try` turns a stat exception into the error dictionary; PDF-content
failures never reach it because `_extract_pdf_content` is total. -/
def extract_metadata (fs : FileSystem) (file_path : String) : MetadataResult :=
  match fs.stat file_path with
  | .error e => .err ("Failed to extract metadata: " ++ e)
  | .ok st =>
    let file_name := basename file_path
    let file_extension := splitextExt file_name
    .ok
      { file_name := file_name
        file_path := file_path
        file_size := st.st_size
        created_date := st.st_ctime
        modified_date := st.st_mtime
        file_extension := file_extension
        file_type := _determine_file_type file_extension
        pdf_analysis :=
          if pyLower file_extension == ".pdf" then
            some (_extract_pdf_content fs file_path)
          else none }

/-- Function `get_image_metadata` of agents.py. -/
def get_image_metadata (fs : FileSystem) (image_path : String) :
    Except String ImageMetadata :=
  match fs.openImage image_path with
  | .error e => .error ("Could not read image metadata: " ++ e)
  | .ok img =>
    .ok
      { dimensions := toString img.width ++ "x" ++ toString img.height
        format := img.format
        mode := img.mode
        has_transparency :=
          (img.mode == "RGBA" || img.mode == "LA") || img.info_transparency }

/-! ## Package assembly (`process_files`, main.py) -/

/-- One entry of `collected_docs`: the extracted metadata, with the
`image_metadata` key merged in when the path was categorized as an
image. -/
structure CollectedDoc where
  meta : MetadataResult
  image_metadata : Option (Except String ImageMetadata)
deriving Repr

/-- The `file_categories` sub-dictionary of the final package. -/
structure FileCategories where
  images : Nat
  documents : Nat
  other : Nat
deriving DecidableEq, Repr

/-- The `final_package` dictionary assembled by `process_files`. -/
structure FinalPackage where
  package_id : String
  created_at : String
  processing_method : String
  total_files : Nat
  file_categories : FileCategories
  categorized_files : Categorized
  file_metadata : List CollectedDoc
  document_processing_results : String
  vision_analysis_results : String
  agents_used : List String
  package_status : String

/-- Function `process_files` of main.py.  `docCollab` models the single external
`document_processing_crew.kickoff` call: `.ok s` is a returned output
rendered by `str(...)` as `s`, `.error e` a raised exception (the
`except` branch then substitutes the fixed warning string); the crew
output object is truthy in Python either way.  `now` stands for the two
`datetime.now()` readings that only feed `package_id`/`created_at`. -/
def process_files (fs : FileSystem) (docCollab : Except String String)
    (now : String) (file_paths : List String) : FinalPackage :=
  let categorized_files := categorize_files_by_type file_paths
  let collected_docs : List CollectedDoc :=
    (file_paths.filter fs.pathExists).map fun p =>
      { meta := extract_metadata fs p
        image_metadata :=
          if categorized_files.images.contains p then
            some (get_image_metadata fs p)
          else none }
  let document_results : Option String :=
    if !categorized_files.documents.isEmpty || !categorized_files.other.isEmpty then
      some (match docCollab with
            | .ok s => s
            | .error _ => "Document processing completed with basic metadata only")
    else none
  let vision_results : Option String :=
    if !categorized_files.images.isEmpty then
      some "Image processing completed with basic metadata extraction only"
    else none
  { package_id := "DUAL_AGENT_PACKAGE_" ++ now
    created_at := now
    processing_method := "dual_agent_system"
    total_files := file_paths.length
    file_categories :=
      { images := categorized_files.images.length
        documents := categorized_files.documents.length
        other := categorized_files.other.length }
    categorized_files := categorized_files
    file_metadata := collected_docs
    document_processing_results :=
      match document_results with
      | some s => s
      | none => "No documents processed"
    vision_analysis_results :=
      match vision_results with
      | some s => s
      | none => "No images processed"
    agents_used :=
      (if document_results.isSome then ["Document Processing Agent"] else []) ++
      (if vision_results.isSome then ["Basic Image Processing"] else [])
    package_status := "COMPLETED" }

/-! ## Theorems: file categorization (C1) -/

theorem categorize_images_eq_filter (ps : List String) :
    (categorize_files_by_type ps).images = ps.filter isImagePath := by
  induction ps with
  | nil => rfl
  | cons p rest ih =>
    cases h1 : isImagePath p <;> cases h2 : isDocumentPath p <;>
      simp [categorize_files_by_type, List.filter_cons, h1, h2, ih]

theorem categorize_documents_eq_filter (ps : List String) :
    (categorize_files_by_type ps).documents
      = ps.filter (fun p => !isImagePath p && isDocumentPath p) := by
  induction ps with
  | nil => rfl
  | cons p rest ih =>
    cases h1 : isImagePath p <;> cases h2 : isDocumentPath p <;>
      simp [categorize_files_by_type, List.filter_cons, h1, h2, ih]

theorem categorize_other_eq_filter (ps : List String) :
    (categorize_files_by_type ps).other
      = ps.filter (fun p => !isImagePath p && !isDocumentPath p) := by
  induction ps with
  | nil => rfl
  | cons p rest ih =>
    cases h1 : isImagePath p <;> cases h2 : isDocumentPath p <;>
      simp [categorize_files_by_type, List.filter_cons, h1, h2, ih]

theorem categorize_length_sum (ps : List String) :
    (categorize_files_by_type ps).images.length
      + (categorize_files_by_type ps).documents.length
      + (categorize_files_by_type ps).other.length = ps.length := by
  induction ps with
  | nil => rfl
  | cons p rest ih =>
    cases h1 : isImagePath p <;> cases h2 : isDocumentPath p <;>
      simp [categorize_files_by_type, h1, h2] <;> omega

/-- C1: `categorize_files_by_type` partitions its input: each category
list is exactly the input filtered by the (case-insensitively lowered)
extension test against the fixed image / document extension lists, with
everything else in `other` — so order of appearance is preserved, the
three lengths sum to the input length, and every input path is a member
of exactly one of the three lists. -/
theorem C1_categorize_partition (ps : List String) :
    (categorize_files_by_type ps).images = ps.filter isImagePath
    ∧ (categorize_files_by_type ps).documents
        = ps.filter (fun p => !isImagePath p && isDocumentPath p)
    ∧ (categorize_files_by_type ps).other
        = ps.filter (fun p => !isImagePath p && !isDocumentPath p)
    ∧ (categorize_files_by_type ps).images.length
        + (categorize_files_by_type ps).documents.length
        + (categorize_files_by_type ps).other.length = ps.length
    ∧ ∀ p, p ∈ ps →
        (p ∈ (categorize_files_by_type ps).images
          ∧ p ∉ (categorize_files_by_type ps).documents
          ∧ p ∉ (categorize_files_by_type ps).other)
        ∨ (p ∉ (categorize_files_by_type ps).images
          ∧ p ∈ (categorize_files_by_type ps).documents
          ∧ p ∉ (categorize_files_by_type ps).other)
        ∨ (p ∉ (categorize_files_by_type ps).images
          ∧ p ∉ (categorize_files_by_type ps).documents
          ∧ p ∈ (categorize_files_by_type ps).other) := by
  refine ⟨categorize_images_eq_filter ps, categorize_documents_eq_filter ps,
    categorize_other_eq_filter ps, categorize_length_sum ps, ?_⟩
  intro p hp
  rw [categorize_images_eq_filter, categorize_documents_eq_filter,
    categorize_other_eq_filter]
  cases h1 : isImagePath p <;> cases h2 : isDocumentPath p <;>
    simp [List.mem_filter, hp, h1, h2]

/-- Witness for C1 at a concrete input: `"a.JPG"` lands in `images` and
in no other category. -/
theorem C1_witness :
    ("a.JPG" ∈ (categorize_files_by_type ["a.JPG", "b.pdf", "c.xyz"]).images
      ∧ "a.JPG" ∉ (categorize_files_by_type ["a.JPG", "b.pdf", "c.xyz"]).documents
      ∧ "a.JPG" ∉ (categorize_files_by_type ["a.JPG", "b.pdf", "c.xyz"]).other)
    ∨ ("a.JPG" ∉ (categorize_files_by_type ["a.JPG", "b.pdf", "c.xyz"]).images
      ∧ "a.JPG" ∈ (categorize_files_by_type ["a.JPG", "b.pdf", "c.xyz"]).documents
      ∧ "a.JPG" ∉ (categorize_files_by_type ["a.JPG", "b.pdf", "c.xyz"]).other)
    ∨ ("a.JPG" ∉ (categorize_files_by_type ["a.JPG", "b.pdf", "c.xyz"]).images
      ∧ "a.JPG" ∉ (categorize_files_by_type ["a.JPG", "b.pdf", "c.xyz"]).documents
      ∧ "a.JPG" ∈ (categorize_files_by_type ["a.JPG", "b.pdf", "c.xyz"]).other) :=
  (C1_categorize_partition ["a.JPG", "b.pdf", "c.xyz"]).2.2.2.2 "a.JPG" (by simp)

/-! ## Theorems: primary-backend aggregate counts (C2) -/

theorem str_data_append (a b : String) : (a ++ b).data = a.data ++ b.data := by
  cases a; cases b; rfl

/-- Modelled from the spec: "the newline-joined concatenation of all page
texts in order" — the page texts joined with a single newline separator
(no trailing newline).  Kept distinct from `joinTextsNl`, which is what
the code accumulates, to compare the two. -/
def specNewlineJoined : List String → String
  | [] => ""
  | [t] => t
  | t :: u :: rest => t ++ "\n" ++ specNewlineJoined (u :: rest)

theorem joinTextsNl_length (texts : List String) :
    (joinTextsNl texts).length = (texts.map String.length).sum + texts.length := by
  induction texts with
  | nil => rfl
  | cons t rest ih =>
    have h1 : joinTextsNl (t :: rest) = t ++ "\n" ++ joinTextsNl rest := rfl
    rw [h1, String.length_append, String.length_append, ih]
    have h2 : ("\n" : String).length = 1 := rfl
    rw [h2]
    simp
    omega

theorem joinTextsNl_eq_joined_newline (texts : List String) (h : texts ≠ []) :
    joinTextsNl texts = specNewlineJoined texts ++ "\n" := by
  induction texts with
  | nil => cases h rfl
  | cons t rest ih =>
    cases rest with
    | nil => simp [joinTextsNl, specNewlineJoined]
    | cons u us =>
      have h1 : joinTextsNl (t :: u :: us) = t ++ "\n" ++ joinTextsNl (u :: us) := rfl
      have h2 : specNewlineJoined (t :: u :: us)
          = t ++ "\n" ++ specNewlineJoined (u :: us) := rfl
      rw [h1, h2, ih (by simp)]
      apply String.ext
      simp [str_data_append, List.append_assoc]

theorem pySplitAux_append_space (c : Char) (hc : pyIsSpace c = true) :
    ∀ (l acc : List Char), pySplitAux (l ++ [c]) acc = pySplitAux l acc := by
  intro l
  induction l with
  | nil =>
    intro acc
    cases ha : acc.isEmpty <;> simp [pySplitAux, hc, ha]
  | cons d ds ih =>
    intro acc
    cases hd : pyIsSpace d <;> cases ha : acc.isEmpty <;>
      simp [pySplitAux, hd, ha, ih]

theorem pySplit_joinTextsNl (texts : List String) :
    pySplitL (joinTextsNl texts).data = pySplitL (specNewlineJoined texts).data := by
  cases texts with
  | nil => rfl
  | cons t rest =>
    rw [joinTextsNl_eq_joined_newline _ (by simp), str_data_append]
    exact pySplitAux_append_space '\n' rfl (specNewlineJoined (t :: rest)).data []

/-- C2 (amended): for a PDF processed successfully by the primary
backend, `page_details` has exactly `total_pages` entries;
`character_count` is the length of the accumulated text, which appends a
newline after every page — so it equals the sum of the page text lengths
plus the number of pages (one more than the newline-joined concatenation
whenever there is at least one page); `word_count` equals the number of
whitespace-delimited tokens of the newline-joined concatenation of the
page texts (the trailing newline does not affect tokenization). -/
theorem C2_primary_counts (pages : List PrimPage) :
    (pdf_primary_analysis pages).total_pages = some pages.length
    ∧ Option.map List.length (pdf_primary_analysis pages).page_details
        = some pages.length
    ∧ (pdf_primary_analysis pages).character_count
        = some ((pages.map (fun pg => pg.text.length)).sum + pages.length)
    ∧ (pdf_primary_analysis pages).word_count
        = some (pySplitL (specNewlineJoined (pages.map PrimPage.text)).data).length := by
  refine ⟨rfl, ?_, ?_, ?_⟩
  · simp [pdf_primary_analysis, primPageDetails]
  · simp only [pdf_primary_analysis]
    rw [joinTextsNl_length]
    simp [List.map_map, List.length_map, Function.comp_def]
  · simp only [pdf_primary_analysis]
    rw [pySplit_joinTextsNl]

/-- C2 is false as stated: for a single page with text `"a"`, the code
stores `character_count = 2` (the extraction loop appends a newline after
every page, including the last), while the newline-joined concatenation
of the page texts is `"a"`, of length `1`. -/
theorem C2_counterexample :
    (pdf_primary_analysis [{ text := "a", images := 0 }]).character_count
      ≠ some (specNewlineJoined ["a"]).length := by decide

/-! ## Theorems: excerpt truncation (C3) -/

theorem truncExcerpt_spec (s : String) :
    (s.length > 2000 →
      truncExcerpt s = (⟨s.data.take 2000⟩ : String) ++ "..."
        ∧ (s.data.take 2000).length = 2000)
    ∧ (s.length ≤ 2000 → truncExcerpt s = s) := by
  constructor
  · intro h
    constructor
    · simp [truncExcerpt, h]
    · have hlen : s.data.length = s.length := rfl
      rw [List.length_take]
      omega
  · intro h
    simp [truncExcerpt]
    omega

/-- C3: the stored `text_content` of either backend's analysis is the
full accumulated text verbatim when it has at most 2000 characters, and
exactly its 2000-character prefix followed by the fixed marker `"..."`
when it is longer. -/
theorem C3_excerpt (pages : List PrimPage) (fpages : List FallbackPage) :
    ((joinTextsNl (pages.map PrimPage.text)).length > 2000 →
      (pdf_primary_analysis pages).text_content
        = some ((⟨(joinTextsNl (pages.map PrimPage.text)).data.take 2000⟩ : String)
            ++ "...")
      ∧ ((joinTextsNl (pages.map PrimPage.text)).data.take 2000).length = 2000)
    ∧ ((joinTextsNl (pages.map PrimPage.text)).length ≤ 2000 →
      (pdf_primary_analysis pages).text_content
        = some (joinTextsNl (pages.map PrimPage.text)))
    ∧ ((fullTextFallback fpages).length > 2000 →
      (pdf_fallback_analysis fpages).text_content
        = some ((⟨(fullTextFallback fpages).data.take 2000⟩ : String) ++ "...")
      ∧ ((fullTextFallback fpages).data.take 2000).length = 2000)
    ∧ ((fullTextFallback fpages).length ≤ 2000 →
      (pdf_fallback_analysis fpages).text_content
        = some (fullTextFallback fpages)) := by
  refine ⟨?_, ?_, ?_, ?_⟩
  · intro h
    refine ⟨?_, ((truncExcerpt_spec _).1 h).2⟩
    show some (truncExcerpt _) = _
    rw [((truncExcerpt_spec _).1 h).1]
  · intro h
    show some (truncExcerpt _) = _
    rw [(truncExcerpt_spec _).2 h]
  · intro h
    refine ⟨?_, ((truncExcerpt_spec _).1 h).2⟩
    show some (truncExcerpt _) = _
    rw [((truncExcerpt_spec _).1 h).1]
  · intro h
    show some (truncExcerpt _) = _
    rw [(truncExcerpt_spec _).2 h]

/-- A 2500-character text, used to exercise the truncation branch. -/
def bigText : String := ⟨List.replicate 2500 'a'⟩

/-- Witness for C3: a 2500-character single-page text is truncated and
marked; a short fallback text is stored verbatim. -/
theorem C3_witness :
    (pdf_primary_analysis [{ text := bigText, images := 0 }]).text_content
      = some ((⟨(joinTextsNl [bigText]).data.take 2000⟩ : String) ++ "...")
    ∧ (pdf_fallback_analysis [some "hi"]).text_content
      = some (fullTextFallback [some "hi"]) := by
  have hlen : bigText.length = 2500 := by
    show (List.replicate 2500 'a').length = 2500
    rw [List.length_replicate]
  have hbig : (joinTextsNl (([{ text := bigText, images := 0 }] : List PrimPage).map
      PrimPage.text)).length > 2000 := by
    rw [joinTextsNl_length]
    simp only [List.map_cons, List.map_nil, List.sum_cons, List.sum_nil,
      List.length_cons, List.length_nil, hlen]
    omega
  have hsmall : (fullTextFallback [some "hi"]).length ≤ 2000 := by decide
  exact ⟨((C3_excerpt [{ text := bigText, images := 0 }] [some "hi"]).1 hbig).1,
    (C3_excerpt [{ text := bigText, images := 0 }] [some "hi"]).2.2.2 hsmall⟩

/-! ## Theorems: extraction-method tags (C4) -/

/-- A run in which the primary PDF backend raises and the fallback
succeeds. -/
def fsFallbackOk : FileSystem :=
  { pathExists := fun _ => true
    stat := fun _ => .ok ⟨10, 0, 0⟩
    pdfPrimary := fun _ => .error "primary boom"
    pdfFallback := fun _ => .ok [some "hello"]
    openImage := fun _ => .error "not an image" }

/-- C4 is false as stated: when the primary backend fails and the
fallback succeeds, the stored `extraction_method` is the literal string
`"PyPDF2_fallback"` — not `"fallback"`, and not any of `"primary"`,
`"fallback"`, `"failed"`. -/
theorem C4_counterexample :
    (_extract_pdf_content fsFallbackOk "a.pdf").extraction_method = "PyPDF2_fallback"
    ∧ (_extract_pdf_content fsFallbackOk "a.pdf").extraction_method ≠ "primary"
    ∧ (_extract_pdf_content fsFallbackOk "a.pdf").extraction_method ≠ "fallback"
    ∧ (_extract_pdf_content fsFallbackOk "a.pdf").extraction_method ≠ "failed" := by
  decide

/-- C4 (amended): `extraction_method` is always one of the literal tags
`"PyMuPDF"` (primary success), `"PyPDF2_fallback"` (fallback success) or
`"failed"` — the spec's primary/fallback/failed labels; whenever the
primary backend raises and the fallback succeeds, the tag is
`"PyPDF2_fallback"`. -/
theorem C4_extraction_method (fs : FileSystem) (path : String) :
    ((_extract_pdf_content fs path).extraction_method = "PyMuPDF"
      ∨ (_extract_pdf_content fs path).extraction_method = "PyPDF2_fallback"
      ∨ (_extract_pdf_content fs path).extraction_method = "failed")
    ∧ ∀ e fpages, fs.pdfPrimary path = .error e →
        fs.pdfFallback path = .ok fpages →
        (_extract_pdf_content fs path).extraction_method = "PyPDF2_fallback" := by
  constructor
  · unfold _extract_pdf_content
    cases fs.pdfPrimary path with
    | ok pages => exact .inl rfl
    | error e =>
      cases fs.pdfFallback path with
      | ok fpages => exact .inr (.inl rfl)
      | error e2 => exact .inr (.inr rfl)
  · intro e fpages he hf
    simp [_extract_pdf_content, he, hf, pdf_fallback_analysis]

/-- Witness for C4 at a concrete run with a failing primary backend and
a succeeding fallback. -/
theorem C4_witness :
    (_extract_pdf_content fsFallbackOk "b.pdf").extraction_method
      = "PyPDF2_fallback" :=
  (C4_extraction_method fsFallbackOk "b.pdf").2 "primary boom" [some "hello"] rfl rfl

/-! ## Theorems: agents_used population (C5) -/

/-- A run in which every path exists and stats succeed, but no PDF or
image content can be read. -/
def fsAllOk : FileSystem :=
  { pathExists := fun _ => true
    stat := fun _ => .ok ⟨5, 1, 2⟩
    pdfPrimary := fun _ => .error "no pdf"
    pdfFallback := fun _ => .error "no pdf"
    openImage := fun _ => .error "no image" }

/-- C5 is false as stated: for the single input `"a.xyz"` the documents
category is empty, yet `agents_used` contains the document-processing
label, because the code also runs the document agent when only the
`other` category is non-empty. -/
theorem C5_counterexample :
    (categorize_files_by_type ["a.xyz"]).documents = []
    ∧ "Document Processing Agent"
        ∈ (process_files fsAllOk (.ok "result") "T" ["a.xyz"]).agents_used := by
  decide

/-- C5 (amended): `agents_used` contains the document-processing label
iff the documents or the other category is non-empty, and the
image-processing label iff the images category is non-empty. -/
theorem C5_agents_used (fs : FileSystem) (docCollab : Except String String)
    (now : String) (ps : List String) :
    ("Document Processing Agent" ∈ (process_files fs docCollab now ps).agents_used
      ↔ ((categorize_files_by_type ps).documents ≠ []
          ∨ (categorize_files_by_type ps).other ≠ []))
    ∧ ("Basic Image Processing" ∈ (process_files fs docCollab now ps).agents_used
      ↔ (categorize_files_by_type ps).images ≠ []) := by
  cases hd : (categorize_files_by_type ps).documents <;>
  cases ho : (categorize_files_by_type ps).other <;>
  cases hi : (categorize_files_by_type ps).images <;>
    simp [process_files, hd, ho, hi]

/-! ## Theorems: recorded double failure (C6) -/

theorem failed_error_message_ne_empty (e1 e2 : String) :
    "PDF extraction failed: " ++ e1 ++ " | Fallback error: " ++ e2 ≠ "" := by
  intro hmsg
  have h0 := congrArg String.length hmsg
  rw [String.length_append, String.length_append, String.length_append] at h0
  have hL : ("PDF extraction failed: " : String).length = 23 := rfl
  have hR : (" | Fallback error: " : String).length = 19 := rfl
  have hE : ("" : String).length = 0 := rfl
  omega

/-- C6: when the stat attributes are readable, the extension is `.pdf`,
and both PDF backends raise, `extract_metadata` still returns the full
record (nothing propagates); its `pdf_analysis` has
`extraction_method = "failed"` and a non-empty error message, and every
non-PDF metadata field is populated from the path and stat
attributes. -/
theorem C6_double_failure (fs : FileSystem) (path : String) (st : FileStats)
    (e1 e2 : String)
    (hs : fs.stat path = .ok st)
    (hp : fs.pdfPrimary path = .error e1)
    (hf : fs.pdfFallback path = .error e2)
    (hext : pyLower (splitextExt (basename path)) = ".pdf") :
    ∃ r : FileRecord,
      extract_metadata fs path = .ok r
      ∧ r.file_name = basename path
      ∧ r.file_path = path
      ∧ r.file_size = st.st_size
      ∧ r.created_date = st.st_ctime
      ∧ r.modified_date = st.st_mtime
      ∧ r.file_extension = splitextExt (basename path)
      ∧ r.file_type = _determine_file_type (splitextExt (basename path))
      ∧ ∃ a, r.pdf_analysis = some a
          ∧ a.extraction_method = "failed"
          ∧ ∃ msg, a.error = some msg ∧ msg ≠ "" := by
  unfold extract_metadata
  rw [hs]
  refine ⟨_, rfl, rfl, rfl, rfl, rfl, rfl, rfl, rfl, ?_⟩
  refine ⟨_extract_pdf_content fs path, ?_, ?_, ?_⟩
  · show (if pyLower (splitextExt (basename path)) == ".pdf" then
        some (_extract_pdf_content fs path) else none) = _
    rw [hext]
    rfl
  · simp [_extract_pdf_content, hp, hf]
  · refine ⟨"PDF extraction failed: " ++ e1 ++ " | Fallback error: " ++ e2, ?_,
      failed_error_message_ne_empty e1 e2⟩
    simp [_extract_pdf_content, hp, hf]

/-- A run in which stats succeed but both PDF backends raise. -/
def fsBothFail : FileSystem :=
  { pathExists := fun _ => true
    stat := fun _ => .ok ⟨7, 3, 4⟩
    pdfPrimary := fun _ => .error "primary boom"
    pdfFallback := fun _ => .error "fallback boom"
    openImage := fun _ => .error "not an image" }

/-- Witness for C6 at a concrete run on `"doc.pdf"` where both backends
raise. -/
theorem C6_witness :
    ∃ r : FileRecord,
      extract_metadata fsBothFail "doc.pdf" = .ok r
      ∧ r.file_name = basename "doc.pdf"
      ∧ r.file_path = "doc.pdf"
      ∧ r.file_size = (7 : Nat)
      ∧ r.created_date = (3 : Int)
      ∧ r.modified_date = (4 : Int)
      ∧ r.file_extension = splitextExt (basename "doc.pdf")
      ∧ r.file_type = _determine_file_type (splitextExt (basename "doc.pdf"))
      ∧ ∃ a, r.pdf_analysis = some a
          ∧ a.extraction_method = "failed"
          ∧ ∃ msg, a.error = some msg ∧ msg ≠ "" :=
  C6_double_failure fsBothFail "doc.pdf" ⟨7, 3, 4⟩ "primary boom" "fallback boom"
    rfl rfl rfl (by decide)

/-! ## Theorems: has_text / has_images invariants (C7) -/

/-- C7: for a successful extraction (either backend), `has_text` is true
iff the accumulated full text is non-empty after stripping whitespace;
for the primary backend, `has_images` is true iff the stored
`total_images` is positive. -/
theorem C7_has_text_has_images (pages : List PrimPage) (fpages : List FallbackPage) :
    ((pdf_primary_analysis pages).has_text = some true
      ↔ pyStripL (joinTextsNl (pages.map PrimPage.text)).data ≠ [])
    ∧ ((pdf_primary_analysis pages).has_images = some true
      ↔ ∃ n, (pdf_primary_analysis pages).total_images = some n ∧ 0 < n)
    ∧ ((pdf_fallback_analysis fpages).has_text = some true
      ↔ pyStripL (fullTextFallback fpages).data ≠ []) := by
  refine ⟨?_, ?_, ?_⟩
  · show some (!(pyStripL (joinTextsNl (pages.map PrimPage.text)).data).isEmpty)
        = some true ↔ _
    simp [List.isEmpty_iff]
  · show some (decide ((pages.map PrimPage.images).sum > 0)) = some true
      ↔ ∃ n, some ((pages.map PrimPage.images).sum) = some n ∧ 0 < n
    simp
  · show some (!(pyStripL (fullTextFallback fpages).data).isEmpty) = some true ↔ _
    simp [List.isEmpty_iff]

/-! ## Theorems: fallback page skipping (C8) -/

/-- C8: the fallback loop accumulates exactly the texts of the pages
whose extraction succeeded, in order — an erroring page is skipped
without aborting the rest — `total_pages` still counts every page, the
aggregate counts are computed from the surviving text, and no per-page
or image statistics are populated. -/
theorem C8_fallback_skips (fpages : List FallbackPage) :
    fullTextFallback fpages = joinTextsNl (fpages.filterMap id)
    ∧ (pdf_fallback_analysis fpages).character_count
        = some (joinTextsNl (fpages.filterMap id)).length
    ∧ (pdf_fallback_analysis fpages).total_pages = some fpages.length
    ∧ (pdf_fallback_analysis fpages).page_details = none
    ∧ (pdf_fallback_analysis fpages).total_images = none
    ∧ (pdf_fallback_analysis fpages).has_images = none := by
  have hft : fullTextFallback fpages = joinTextsNl (fpages.filterMap id) := by
    induction fpages with
    | nil => rfl
    | cons p rest ih =>
      cases p <;> simp [fullTextFallback, joinTextsNl, List.filterMap_cons, ih]
  refine ⟨hft, ?_, rfl, rfl, rfl, rfl⟩
  show some (fullTextFallback fpages).length = _
  rw [hft]

/-! ## Theorems: extract_metadata totality (C9) -/

/-- C9: `extract_metadata` is total — every call returns either the
error-only record or a full record — and when reading the stat
attributes raises with message `e`, the result is exactly the error-only
record, which carries no FileRecord fields. -/
theorem C9_extract_metadata_total (fs : FileSystem) (path : String) :
    ((∃ msg, extract_metadata fs path = .err msg)
      ∨ (∃ r, extract_metadata fs path = .ok r))
    ∧ ∀ e, fs.stat path = .error e →
        extract_metadata fs path = .err ("Failed to extract metadata: " ++ e) := by
  constructor
  · unfold extract_metadata
    cases fs.stat path with
    | error e => exact .inl ⟨_, rfl⟩
    | ok st => exact .inr ⟨_, rfl⟩
  · intro e he
    simp [extract_metadata, he]

/-- A run in which every stat read raises (missing paths). -/
def fsStatFails : FileSystem :=
  { pathExists := fun _ => false
    stat := fun _ => .error "No such file or directory"
    pdfPrimary := fun _ => .error "unreadable"
    pdfFallback := fun _ => .error "unreadable"
    openImage := fun _ => .error "unreadable" }

/-- Witness for C9 at a concrete missing path. -/
theorem C9_witness :
    extract_metadata fsStatFails "missing.txt"
      = .err ("Failed to extract metadata: " ++ "No such file or directory") :=
  (C9_extract_metadata_total fsStatFails "missing.txt").2
    "No such file or directory" rfl

/-! ## Theorems: package counts and skipped paths (C10) -/

/-- C10: the assembled package's `total_files` is the input length, its
category counts are the lengths of the categorized lists over all
inputs, and `file_metadata` has exactly one entry per existing input
path — non-existent paths contribute nothing, so `file_metadata` can be
strictly shorter than `total_files`, as a concrete run shows. -/
theorem C10_package_counts (fs : FileSystem) (docCollab : Except String String)
    (now : String) (ps : List String) :
    (process_files fs docCollab now ps).total_files = ps.length
    ∧ (process_files fs docCollab now ps).file_categories.images
        = (categorize_files_by_type ps).images.length
    ∧ (process_files fs docCollab now ps).file_categories.documents
        = (categorize_files_by_type ps).documents.length
    ∧ (process_files fs docCollab now ps).file_categories.other
        = (categorize_files_by_type ps).other.length
    ∧ (process_files fs docCollab now ps).file_metadata.length
        = (ps.filter fs.pathExists).length
    ∧ (process_files fs docCollab now ps).file_metadata.length ≤ ps.length
    ∧ ∃ fs2 ps2, (process_files fs2 docCollab now ps2).file_metadata.length
        < (process_files fs2 docCollab now ps2).total_files := by
  refine ⟨rfl, rfl, rfl, rfl, ?_, ?_, ?_⟩
  · simp [process_files]
  · calc (process_files fs docCollab now ps).file_metadata.length
        = (ps.filter fs.pathExists).length := by simp [process_files]
      _ ≤ ps.length := List.length_filter_le _ _
  · refine ⟨fsStatFails, ["ghost.txt"], ?_⟩
    show (process_files fsStatFails docCollab now ["ghost.txt"]).file_metadata.length
        < (process_files fsStatFails docCollab now ["ghost.txt"]).total_files
    simp [process_files, fsStatFails]

end KYC
